import Mathlib

/-!
# Verification of the cling incremental-compilation core interface

Shallow embedding of `src/include/cling/Interpreter/Interpreter.h`
(the `cling::Interpreter` class) together with a model of the behaviour
the header documents.  The repository ships only the header: result
enums, the `LoadedFileInfo` record, the `CXAAtExitElement` record and
the member declarations are taken directly from the source; the bodies
of the member functions are not under `src/`, so their behaviour is
modelled from the specification, as marked in the doc comments below.

Machine integers (`unsigned long long m_UniqueCounter`) are modelled as
`Nat`; overflow of a 64-bit monotonic counter is unreachable in any run
the spec considers, and no claim depends on wraparound.  Pointers
(`llvm::sys::DynamicLibrary*`, `clang::Decl*`, function pointers) are
modelled as identities: `Option String` for the registry back-pointer
(null = `none`), `Nat` identifiers for declarations and callback data.
-/

namespace Cling

/-- `Interpreter::CompilationResult` from Interpreter.h (lines 66-70). -/
inductive CompilationResult where
  | kSuccess
  | kFailure
  | kMoreInputExpected
deriving DecidableEq, Repr

/-- `Interpreter::LoadLibResult` from Interpreter.h (lines 74-79). -/
inductive LoadLibResult where
  | kLoadLibSuccess
  | kLoadLibExists
  | kLoadLibError
  | kLoadLibNumResults
deriving DecidableEq, Repr

/-- `Interpreter::ExecutionResult` from Interpreter.h (lines 83-102).
In the C++ enum `kExeFirstError` is an enumerator sharing the value of
`kExeFunctionNotCompiled`; here the distinct runtime results are the
constructors and `kExeFirstError` is the shared numeric threshold,
recovered by `ExecutionResult.toNat`. -/
inductive ExecutionResult where
  | kExeSuccess
  | kExeNoCodeGen
  | kExeFunctionNotCompiled
  | kExeUnresolvedSymbols
  | kExeCompilationError
  | kExeUnkownFunction
  | kNumExeResults
deriving DecidableEq, Repr

/-- The numeric value each `ExecutionResult` enumerator has in the C++
enum (successive values starting at 0). -/
def ExecutionResult.toNat : ExecutionResult → Nat
  | .kExeSuccess => 0
  | .kExeNoCodeGen => 1
  | .kExeFunctionNotCompiled => 2
  | .kExeUnresolvedSymbols => 3
  | .kExeCompilationError => 4
  | .kExeUnkownFunction => 5
  | .kNumExeResults => 6

/-- Value of the C++ enumerator `kExeFirstError`
(`kExeFunctionNotCompiled = kExeFirstError`, Interpreter.h line 92). -/
def kExeFirstError : Nat := 2

/-- The single-comparison error test the enum layout supports:
a result denotes an error iff its value is at least `kExeFirstError`. -/
def ExecutionResult.isError (r : ExecutionResult) : Bool :=
  decide (kExeFirstError ≤ r.toNat)

/-- `Interpreter::LoadedFileInfo::FileType` (Interpreter.h lines 107-112). -/
inductive FileType where
  | kSource
  | kDynamicLibrary
  | kBitcode
  | kNumFileTypes
deriving DecidableEq, Repr

/-- `Interpreter::LoadedFileInfo` (Interpreter.h lines 105-143): name as
first requested, file type, and the pointer to the `m_DyLibs` entry if
the file is a dynamic library (null pointer = `none`, modelled by the
canonical library identity it points at). -/
structure LoadedFileInfo where
  m_Name : String
  m_Type : FileType
  m_DynLib : Option String
deriving DecidableEq, Repr

/-- `LoadedFileInfo::getName` (Interpreter.h line 116). -/
def LoadedFileInfo.getName (i : LoadedFileInfo) : String := i.m_Name

/-- `LoadedFileInfo::getType` (Interpreter.h line 119). -/
def LoadedFileInfo.getType (i : LoadedFileInfo) : FileType := i.m_Type

/-- `LoadedFileInfo::getDynLib` (Interpreter.h line 123). -/
def LoadedFileInfo.getDynLib (i : LoadedFileInfo) : Option String := i.m_DynLib

/-- `Interpreter::CXAAtExitElement` (Interpreter.h lines 192-232):
function to call, its argument, the DSO handle, and the top-level
declaration whose unloading triggers the call.  The three pointers are
modelled as `Nat` identities, the `clang::Decl*` as a `Nat` decl id. -/
structure CXAAtExitElement where
  m_Func : Nat
  m_Arg : Nat
  m_DSO : Nat
  m_FromTLD : Nat
deriving DecidableEq, Repr

/-- Status of a Transaction (spec §3: `status ∈ {Collecting, Compiled,
Executed, RolledBack}`).  The `Transaction` class itself is declared in
this repository but its definition is not under `src/`. -/
inductive TransactionStatus where
  | Collecting
  | Compiled
  | Executed
  | RolledBack
deriving DecidableEq, Repr

/-- Modelled from the spec: the `cling::Transaction` class (forward
declared in Interpreter.h line 55, defined outside `src/`) — an ordered
unit of compiled declarations with a status and an optional synthesized
wrapper-function name.  Chain position is carried by the order of the
interpreter's transaction list. -/
structure Transaction where
  decls : List Nat
  status : TransactionStatus
  wrapperName : Option String
deriving DecidableEq, Repr

/-- The state of one `cling::Interpreter` instance: the fields of the
class from Interpreter.h (`m_UniqueCounter` line 173, `m_PrintAST` line
177, `m_DynamicLookupEnabled` line 181, `m_AtExitFuncs` line 237,
`m_DyLibs` line 241 as the set of canonical identities, `m_LoadedFiles`
line 245), plus the state held behind the opaque worker pointers:
`m_Transactions`/`m_CurTransaction` for the transaction chain owned by
the incremental-parsing worker and `m_Symbols` for the symbols injected
into the execution engine via `addSymbol`.  `m_DyLibs` is a `std::set`;
it is modelled as a duplicate-free-by-construction insertion list, with
membership as the dedup key. -/
structure Interpreter where
  m_UniqueCounter : Nat
  m_PrintAST : Bool
  m_DynamicLookupEnabled : Bool
  m_AtExitFuncs : List CXAAtExitElement
  m_DyLibs : List String
  m_LoadedFiles : List LoadedFileInfo
  m_Transactions : List Transaction
  m_CurTransaction : Option Transaction
  m_Symbols : List String
deriving DecidableEq, Repr

/-- A freshly constructed interpreter: empty registries, counter at 0. -/
def initInterp : Interpreter :=
  { m_UniqueCounter := 0
    m_PrintAST := false
    m_DynamicLookupEnabled := false
    m_AtExitFuncs := []
    m_DyLibs := []
    m_LoadedFiles := []
    m_Transactions := []
    m_CurTransaction := none
    m_Symbols := [] }

/-! ## Unique-name generation

`createUniqueName` / `createUniqueWrapper` (Interpreter.h lines 349-378)
render the counter in decimal after a reserved prefix (spec §4.1:
`<reservedPrefix><counter++>`).  The decimal rendering (llvm `utostr`)
is modelled over `Nat.digits`. -/

/-- Decimal rendering of a natural number (model of llvm `utostr`). -/
def utostr (n : Nat) : String :=
  if n = 0 then "0" else ⟨((Nat.digits 10 n).map Nat.digitChar).reverse⟩

/-- Modelled from the spec: the concrete reserved-prefix string lives in
the implementation outside `src/`; it is fixed here as a reserved
identifier not permitted in user code (spec §4.1). -/
def uniquePfx : String := "__cling_Un1Qu3"

/-- Modelled from the spec: the distinct reserved prefix for synthesized
wrapper names (spec §4.1, §3 UniqueCounter). -/
def wrapperPfx : String := "__cling_Wr4pp3r"

/-- `Interpreter::createUniqueName` (Interpreter.h line 351).  Modelled
from the spec: writes `<reservedPrefix><counter++>` into `out` —
returns the produced name and the interpreter with the counter
advanced. -/
def createUniqueName (s : Interpreter) : String × Interpreter :=
  (uniquePfx ++ utostr s.m_UniqueCounter,
   { s with m_UniqueCounter := s.m_UniqueCounter + 1 })

/-- `Interpreter::isUniqueName` (Interpreter.h line 360).  Modelled from
the spec: true iff `name` starts with the reserved prefix (the
`llvm::StringRef` starts-with test, taken on the character lists). -/
def isUniqueName (name : String) : Bool :=
  uniquePfx.data.isPrefixOf name.data

/-- `Interpreter::createUniqueWrapper` (Interpreter.h line 369).
Modelled from the spec: same scheme as `createUniqueName` under the
distinct wrapper prefix, driven by the same `m_UniqueCounter` (spec §3:
one counter drives both classes of names). -/
def createUniqueWrapper (s : Interpreter) : String × Interpreter :=
  (wrapperPfx ++ utostr s.m_UniqueCounter,
   { s with m_UniqueCounter := s.m_UniqueCounter + 1 })

/-- `Interpreter::isUniqueWrapper` (Interpreter.h line 378).  Modelled
from the spec: mirrors `isUniqueName` against the wrapper prefix. -/
def isUniqueWrapper (name : String) : Bool :=
  wrapperPfx.data.isPrefixOf name.data

/-- `Interpreter::WrapInput` (Interpreter.h line 294).  Modelled from
the spec (§4.2): synthesizes `void <uniqueWrapperName>() { <text> }`
and returns the wrapped text with the wrapper function's name. -/
def WrapInput (s : Interpreter) (input : String) :
    (String × String) × Interpreter :=
  let r := createUniqueWrapper s
  (("void " ++ r.1 ++ "() \x7b\n" ++ input ++ "\n;\n\x7d", r.1), r.2)

/-! ### Injectivity of the decimal rendering -/

lemma digitChar_inj_lt :
    ∀ a < 10, ∀ b < 10, Nat.digitChar a = Nat.digitChar b → a = b := by
  decide

lemma map_digitChar_inj :
    ∀ l₁ l₂ : List Nat, (∀ x ∈ l₁, x < 10) → (∀ x ∈ l₂, x < 10) →
      l₁.map Nat.digitChar = l₂.map Nat.digitChar → l₁ = l₂ := by
  intro l₁
  induction l₁ with
  | nil =>
    intro l₂ _ _ h
    cases l₂ with
    | nil => rfl
    | cons b t => simp at h
  | cons a t ih =>
    intro l₂ h₁ h₂ h
    cases l₂ with
    | nil => simp at h
    | cons b t₂ =>
      simp only [List.map_cons, List.cons.injEq] at h
      have ha : a < 10 := h₁ a (List.mem_cons_self a t)
      have hb : b < 10 := h₂ b (List.mem_cons_self b t₂)
      have hab : a = b := digitChar_inj_lt a ha b hb h.1
      have ht : t = t₂ :=
        ih t₂ (fun x hx => h₁ x (List.mem_cons_of_mem a hx))
          (fun x hx => h₂ x (List.mem_cons_of_mem b hx)) h.2
      rw [hab, ht]

lemma utostr_ne_zero_eq {n : Nat} (hn : n ≠ 0) :
    utostr n = ⟨((Nat.digits 10 n).map Nat.digitChar).reverse⟩ := by
  simp [utostr, hn]

lemma utostr_inj : Function.Injective utostr := by
  intro m n h
  by_cases hm : m = 0 <;> by_cases hn : n = 0
  · rw [hm, hn]
  · exfalso
    rw [hm, utostr_ne_zero_eq hn] at h
    have hd : List.reverse (List.map Nat.digitChar (Nat.digits 10 n))
        = [Nat.digitChar 0] := by
      have := congrArg String.data h
      simpa [utostr] using this.symm
    have hmap : List.map Nat.digitChar (Nat.digits 10 n)
        = [Nat.digitChar 0] := by
      have := congrArg List.reverse hd
      simpa using this
    cases hds : Nat.digits 10 n with
    | nil => rw [hds] at hmap; simp at hmap
    | cons d t =>
      rw [hds] at hmap
      cases t with
      | cons d₂ t₂ => simp at hmap
      | nil =>
        simp only [List.map_cons, List.map_nil, List.cons.injEq] at hmap
        have hdlt : d < 10 :=
          Nat.digits_lt_base (by norm_num) (hds ▸ List.mem_cons_self d [])
        have hd0 : d = 0 := digitChar_inj_lt d hdlt 0 (by norm_num) hmap.1
        have : n = Nat.ofDigits 10 (Nat.digits 10 n) :=
          (Nat.ofDigits_digits 10 n).symm
        rw [hds, hd0] at this
        simp [Nat.ofDigits] at this
        exact hn this
  · exfalso
    rw [hn, utostr_ne_zero_eq hm] at h
    have hd : List.reverse (List.map Nat.digitChar (Nat.digits 10 m))
        = [Nat.digitChar 0] := by
      have := congrArg String.data h
      simpa [utostr] using this
    have hmap : List.map Nat.digitChar (Nat.digits 10 m)
        = [Nat.digitChar 0] := by
      have := congrArg List.reverse hd
      simpa using this
    cases hds : Nat.digits 10 m with
    | nil => rw [hds] at hmap; simp at hmap
    | cons d t =>
      rw [hds] at hmap
      cases t with
      | cons d₂ t₂ => simp at hmap
      | nil =>
        simp only [List.map_cons, List.map_nil, List.cons.injEq] at hmap
        have hdlt : d < 10 :=
          Nat.digits_lt_base (by norm_num) (hds ▸ List.mem_cons_self d [])
        have hd0 : d = 0 := digitChar_inj_lt d hdlt 0 (by norm_num) hmap.1
        have : m = Nat.ofDigits 10 (Nat.digits 10 m) :=
          (Nat.ofDigits_digits 10 m).symm
        rw [hds, hd0] at this
        simp [Nat.ofDigits] at this
        exact hm this
  · rw [utostr_ne_zero_eq hm, utostr_ne_zero_eq hn] at h
    have hdata := congrArg String.data h
    simp only at hdata
    have hrev := congrArg List.reverse hdata
    simp only [List.reverse_reverse] at hrev
    have hdig : Nat.digits 10 m = Nat.digits 10 n :=
      map_digitChar_inj _ _
        (fun x hx => Nat.digits_lt_base (by norm_num) hx)
        (fun x hx => Nat.digits_lt_base (by norm_num) hx) hrev
    calc m = Nat.ofDigits 10 (Nat.digits 10 m) :=
            (Nat.ofDigits_digits 10 m).symm
      _ = Nat.ofDigits 10 (Nat.digits 10 n) := by rw [hdig]
      _ = n := Nat.ofDigits_digits 10 n

lemma string_append_left_cancel {p x y : String}
    (h : p ++ x = p ++ y) : x = y := by
  have hd := congrArg String.data h
  simp only [String.data_append] at hd
  have h2 := List.append_cancel_left hd
  cases x with
  | mk dx =>
    cases y with
    | mk dy => exact congrArg String.mk h2

/-! ## Submission pipeline (process/parse/declare/evaluate/echo/execute)

The member functions (Interpreter.h lines 419-487) all funnel through
`DeclareInternal`/`EvaluateInternal` (lines 267-284), whose bodies are
not under `src/`.  The Frontend collaborator's verdict on the input is
abstracted as a `FrontendOutcome` parameter (spec §6: parsing and
codegen are external); the transaction bookkeeping around it is
modelled from spec §4.3 and §7. -/

/-- Modelled from the spec: the Frontend collaborator's verdict on one
submitted input — success with the declarations it produced, a hard
compile failure after having partially built some declarations, or
syntactically incomplete input. -/
inductive FrontendOutcome where
  | success (decls : List Nat)
  | failure (builtSoFar : List Nat)
  | moreInput
deriving DecidableEq, Repr

/-- Modelled from the spec (§3 Transaction lifecycle): a submission
first opens a Collecting transaction holding the declarations the
Frontend has built so far. -/
def startTransaction (s : Interpreter) (ds : List Nat) : Interpreter :=
  { s with
    m_CurTransaction := some ({ decls := ds, status := .Collecting,
                                wrapperName := none }) }

/-- Modelled from the spec (§7: rollback of any partially built
declarations on failure is mandatory): the open transaction is
discarded, its declarations leave visible program state. -/
def rollbackTransaction (s : Interpreter) : Interpreter :=
  { s with m_CurTransaction := none }

/-- Modelled from the spec (§4.3: on `Success`, a new Transaction is
appended to the chain): the open transaction is marked Compiled and
appended in submission order. -/
def commitTransaction (s : Interpreter) : Interpreter :=
  match s.m_CurTransaction with
  | some t =>
      { s with
        m_Transactions := s.m_Transactions ++ [{ t with status := .Compiled }]
        m_CurTransaction := none }
  | none => s

/-- The number of declarations currently in visible program state:
those of every committed transaction plus those of the open one. -/
def declCount (s : Interpreter) : Nat :=
  (s.m_Transactions.map (fun t => t.decls.length)).sum +
  (match s.m_CurTransaction with
   | some t => t.decls.length
   | none => 0)

/-- Modelled from the spec: the common submission path behind
`process`/`parse`/`declare`/`evaluate`/`echo`/`execute`
(`DeclareInternal`/`EvaluateInternal`, Interpreter.h lines 267-284,
bodies outside `src/`).  The Frontend builds declarations into a
Collecting transaction; on a hard failure that transaction is rolled
back, on incomplete input nothing is committed, on success the
transaction is committed to the chain (spec §4.3, §7). -/
def submit (s : Interpreter) (out : FrontendOutcome) :
    CompilationResult × Interpreter :=
  match out with
  | .moreInput => (.kMoreInputExpected, s)
  | .failure built => (.kFailure, rollbackTransaction (startTransaction s built))
  | .success ds => (.kSuccess, commitTransaction (startTransaction s ds))

/-! ## Execution (RunFunction / addSymbol) -/

/-- `Interpreter::addSymbol` (Interpreter.h line 310).  Modelled from
the spec: injects an externally defined symbol into the execution
resolver (spec §6 `addSymbol(name, address)`). -/
def addSymbol (s : Interpreter) (symbolName : String) : Interpreter :=
  { s with m_Symbols := s.m_Symbols ++ [symbolName] }

/-- Modelled from the spec: running a compiled transaction's entry
point (`RunFunction`, Interpreter.h line 305, body outside `src/`).
The entry point's required external symbols are abstracted as a
parameter; linking succeeds iff every required symbol resolves against
the injected symbol table, otherwise the typed result is
`kExeUnresolvedSymbols` (spec §4.4).  No retry is performed. -/
def runFunction (s : Interpreter) (required : List String) : ExecutionResult :=
  if required.all (fun n => decide (n ∈ s.m_Symbols)) then .kExeSuccess
  else .kExeUnresolvedSymbols

/-- Modelled from the spec: `process` with execution — compile the
input, and only when compilation succeeds run the transaction's entry
point once (spec §4.3 `process`, §4.4; no automatic retry of a failed
execution).  Execution failure does not touch the committed chain. -/
def processAndRun (s : Interpreter) (out : FrontendOutcome)
    (required : List String) :
    CompilationResult × Option ExecutionResult × Interpreter :=
  let r := submit s out
  match r.1 with
  | .kSuccess => (r.1, some (runFunction r.2 required), r.2)
  | _ => (r.1, none, r.2)

/-! ## AtExit registry (CXAAtExit / unload) -/

/-- `Interpreter::CXAAtExit` (Interpreter.h line 537).  Modelled from
the spec (§4.6): records a `CXAAtExitElement` owned by the declaration
currently being compiled/executed, appended in registration order to
`m_AtExitFuncs`. -/
def CXAAtExit (s : Interpreter) (func arg dso : Nat) (fromTLD : Nat) :
    Interpreter :=
  { s with m_AtExitFuncs := s.m_AtExitFuncs ++
      [{ m_Func := func, m_Arg := arg, m_DSO := dso, m_FromTLD := fromTLD }] }

/-- An observable step of a transaction unload: an AtExit callback
invocation, or the removal of one declaration from visible state. -/
inductive UnloadEvent where
  | atExitCall (e : CXAAtExitElement)
  | removeDecl (d : Nat)
deriving DecidableEq, Repr

/-- Modelled from the spec: walk the AtExit registry from the most
recently registered entry backwards; entries owned by one of the given
declarations are invoked (collected in firing order), the others are
kept in registration order (spec §4.6: invoked in reverse registration
order, then discarded). -/
def fireAtExit (reg : List CXAAtExitElement) (ds : List Nat) :
    List CXAAtExitElement × List CXAAtExitElement :=
  match reg with
  | [] => ([], [])
  | e :: rest =>
      let p := fireAtExit rest ds
      if e.m_FromTLD ∈ ds then (p.1 ++ [e], p.2) else (p.1, e :: p.2)

/-- Modelled from the spec (§4.3 Unload, §4.6): unloading a committed
transaction fires its AtExit entries in reverse registration order,
then removes its declarations from visible state and unlinks it from
the chain.  Returns the observable event trace and the new state. -/
def unloadTransaction (s : Interpreter) (t : Transaction) :
    List UnloadEvent × Interpreter :=
  let p := fireAtExit s.m_AtExitFuncs t.decls
  (p.1.map UnloadEvent.atExitCall ++ t.decls.map UnloadEvent.removeDecl,
   { s with
     m_AtExitFuncs := p.2
     m_Transactions := s.m_Transactions.erase t })

/-! ## Library / file loading -/

/-- Modelled from the spec: `loadLibrary` (Interpreter.h lines 500-509,
body outside `src/`).  The canonicalization of a library identity and
the ExecutionBackend's load attempt are abstracted as parameters
`canon` and `loadOk`.  If the canonical identity is already in the
handle set, returns `kLoadLibExists` with nothing changed; if the load
attempt fails, returns `kLoadLibError` with nothing changed; otherwise
appends the identity to the handle set and a `LoadedFileInfo` record
(pointing at the handle-set entry) to the registry (spec §4.5). -/
def loadLibrary (canon : String → String) (loadOk : String → Bool)
    (s : Interpreter) (filename : String) (permanent : Bool) :
    LoadLibResult × Interpreter :=
  let ident := canon filename
  if ident ∈ s.m_DyLibs then (.kLoadLibExists, s)
  else if loadOk ident then
    (.kLoadLibSuccess,
     { s with
       m_DyLibs := s.m_DyLibs ++ [ident]
       m_LoadedFiles := s.m_LoadedFiles ++
         [{ m_Name := filename, m_Type := .kDynamicLibrary,
            m_DynLib := some ident }] })
  else (.kLoadLibError, s)

/-- `Interpreter::addLoadedFile` (Interpreter.h lines 251-252, body
outside `src/`).  Modelled from the spec: appends one record to the
append-only loaded-file registry. -/
def addLoadedFile (s : Interpreter) (name : String) (type : FileType)
    (dyLib : Option String) : Interpreter :=
  { s with m_LoadedFiles := s.m_LoadedFiles ++
      [{ m_Name := name, m_Type := type, m_DynLib := dyLib }] }

/-- Modelled from the spec (§4.5): after the source route compiled the
file, a successful submission is recorded in the registry as a source
artifact (null handle); failures record nothing. -/
def routeSource (p : CompilationResult × Interpreter)
    (filename : String) : CompilationResult × Interpreter :=
  match p with
  | (.kSuccess, st) => (.kSuccess, addLoadedFile st filename .kSource none)
  | (c, st) => (c, st)

/-- Modelled from the spec (§4.5): translate a `loadLibrary` result to
the `CompilationResult` surface of `loadFile` (an already-loaded
library is not an error). -/
def routeDynLib (p : LoadLibResult × Interpreter) :
    CompilationResult × Interpreter :=
  match p with
  | (.kLoadLibSuccess, st) => (.kSuccess, st)
  | (.kLoadLibExists, st) => (.kSuccess, st)
  | (_, st) => (.kFailure, st)

/-- Modelled from the spec: `loadFile` (Interpreter.h lines 497-498,
body outside `src/`).  The artifact classification is abstracted as a
parameter; source artifacts are routed through the submission path,
bitcode through the backend linker (recorded with a null handle),
dynamic libraries through `loadLibrary` — skipped when `allowSharedLib`
is false (spec §4.5). -/
def loadFile (classify : String → FileType) (canon : String → String)
    (loadOk : String → Bool) (srcOutcome : FrontendOutcome)
    (s : Interpreter) (filename : String) (allowSharedLib : Bool) :
    CompilationResult × Interpreter :=
  match classify filename with
  | .kDynamicLibrary =>
      if allowSharedLib then
        routeDynLib (loadLibrary canon loadOk s filename false)
      else routeSource (submit s srcOutcome) filename
  | .kBitcode =>
      if loadOk filename then
        (.kSuccess, addLoadedFile s filename .kBitcode none)
      else (.kFailure, s)
  | _ => routeSource (submit s srcOutcome) filename

/-- `Interpreter::getLoadedFiles` (Interpreter.h lines 513-514): a
read-only view of the loaded-file registry. -/
def getLoadedFiles (s : Interpreter) : List LoadedFileInfo :=
  s.m_LoadedFiles

/-- `Interpreter::enableDynamicLookup` (Interpreter.h line 516). -/
def enableDynamicLookup (s : Interpreter) (value : Bool) : Interpreter :=
  { s with m_DynamicLookupEnabled := value }

/-! ## The public mutating surface as a step type

Used for whole-API invariants: each constructor is one state-mutating
public entry point of `cling::Interpreter` (Interpreter.h public
section), with the external collaborators' contributions (Frontend
verdicts, load outcomes, canonicalization, artifact classification)
carried as data of the operation. -/

/-- One call into the interpreter's public mutating surface. -/
inductive Op where
  | submission (out : FrontendOutcome)
  | run (out : FrontendOutcome) (required : List String)
  | load (classify : String → FileType) (canon : String → String)
      (loadOk : String → Bool) (srcOutcome : FrontendOutcome)
      (filename : String) (allowSharedLib : Bool)
  | loadLib (canon : String → String) (loadOk : String → Bool)
      (filename : String) (permanent : Bool)
  | unload (t : Transaction)
  | atExitReg (func arg dso fromTLD : Nat)
  | symbol (name : String)
  | uniqueName
  | uniqueWrapper
  | dynLookup (value : Bool)
  | printAST (value : Bool)

/-- Apply one public operation to the interpreter state. -/
def applyOp (s : Interpreter) : Op → Interpreter
  | .submission out => (submit s out).2
  | .run out required => (processAndRun s out required).2.2
  | .load classify canon loadOk srcOutcome filename allow =>
      (loadFile classify canon loadOk srcOutcome s filename allow).2
  | .loadLib canon loadOk filename permanent =>
      (loadLibrary canon loadOk s filename permanent).2
  | .unload t => (unloadTransaction s t).2
  | .atExitReg func arg dso fromTLD => CXAAtExit s func arg dso fromTLD
  | .symbol name => addSymbol s name
  | .uniqueName => (createUniqueName s).2
  | .uniqueWrapper => (createUniqueWrapper s).2
  | .dynLookup value => enableDynamicLookup s value
  | .printAST value => { s with m_PrintAST := value }

/-- Run a sequence of public operations from a starting state. -/
def applyOps (s : Interpreter) (ops : List Op) : Interpreter :=
  ops.foldl applyOp s

/-! ## Helper lemmas -/

lemma submit_m_LoadedFiles (s : Interpreter) (out : FrontendOutcome) :
    (submit s out).2.m_LoadedFiles = s.m_LoadedFiles := by
  cases out <;>
    simp [submit, startTransaction, rollbackTransaction, commitTransaction]

lemma submit_m_Symbols (s : Interpreter) (out : FrontendOutcome) :
    (submit s out).2.m_Symbols = s.m_Symbols := by
  cases out <;>
    simp [submit, startTransaction, rollbackTransaction, commitTransaction]

lemma pfx_append_ne (p : String) (c : Nat) :
    p ++ utostr c ≠ p ++ utostr (c + 1) := by
  intro h
  have h2 := string_append_left_cancel h
  have h3 := utostr_inj h2
  omega

lemma data_isPrefixOf_self_append (p x : String) :
    p.data.isPrefixOf (p ++ x).data = true := by
  rw [String.data_append, List.isPrefixOf_iff_prefix]
  exact List.prefix_append _ _

/-! ## Claims -/

/-- C9: the `ExecutionResult` taxonomy is partitioned by the threshold
`kExeFirstError`: a result's value is at least `kExeFirstError` exactly
when the result is neither `kExeSuccess` nor `kExeNoCodeGen` (those two
are the only non-error results), and `kExeFunctionNotCompiled` shares
the value of `kExeFirstError`, so "did execution fail" is a single
comparison for every result. -/
theorem execution_result_error_threshold :
    (∀ r : ExecutionResult,
        r.isError = true ↔ (r ≠ .kExeSuccess ∧ r ≠ .kExeNoCodeGen)) ∧
    ExecutionResult.toNat .kExeFunctionNotCompiled = kExeFirstError := by
  constructor
  · intro r
    cases r <;> simp [ExecutionResult.isError, ExecutionResult.toNat,
      kExeFirstError]
  · rfl

/-- C3: two sequential `createUniqueName` calls on one interpreter
instance produce different names (the output being the reserved prefix
followed by the rendered post-incremented counter), `isUniqueName` is
true of every produced name, and false of any identifier that does not
start with the reserved prefix. -/
theorem createUniqueName_distinct_and_classified (s : Interpreter) :
    (createUniqueName s).1 ≠ (createUniqueName (createUniqueName s).2).1 ∧
    isUniqueName (createUniqueName s).1 = true ∧
    isUniqueName (createUniqueName (createUniqueName s).2).1 = true ∧
    (∀ name : String, ¬ (uniquePfx.data <+: name.data) →
        isUniqueName name = false) := by
  refine ⟨?_, ?_, ?_, ?_⟩
  · exact pfx_append_ne uniquePfx s.m_UniqueCounter
  · exact data_isPrefixOf_self_append uniquePfx _
  · exact data_isPrefixOf_self_append uniquePfx _
  · intro name h
    rw [isUniqueName, ← Bool.not_eq_true, List.isPrefixOf_iff_prefix]
    exact h

/-- C3 witness: on a fresh interpreter the first two generated names
differ, each is classified as core-generated, and the plain identifier
`x` is not. -/
theorem createUniqueName_distinct_and_classified_witness :
    (createUniqueName initInterp).1 ≠
      (createUniqueName (createUniqueName initInterp).2).1 ∧
    isUniqueName (createUniqueName initInterp).1 = true ∧
    isUniqueName "x" = false :=
  ⟨(createUniqueName_distinct_and_classified initInterp).1,
   (createUniqueName_distinct_and_classified initInterp).2.1,
   (createUniqueName_distinct_and_classified initInterp).2.2.2 "x"
     (by decide)⟩

/-- C7: two sequential `WrapInput` calls, even on character-for-
character identical statement text, synthesize distinct wrapper
identifiers — so resubmitting the same statements defines a fresh
symbol rather than redefining one — and `isUniqueWrapper` is true of
each generated wrapper name. -/
theorem wrapInput_distinct_wrappers (s : Interpreter) (input : String) :
    (WrapInput s input).1.2 ≠
      (WrapInput (WrapInput s input).2 input).1.2 ∧
    isUniqueWrapper (WrapInput s input).1.2 = true ∧
    isUniqueWrapper ((WrapInput (WrapInput s input).2 input).1.2) = true :=
  ⟨pfx_append_ne wrapperPfx s.m_UniqueCounter,
   data_isPrefixOf_self_append wrapperPfx _,
   data_isPrefixOf_self_append wrapperPfx _⟩

/-- C1: a submission that does not return `kSuccess` leaves program
state unchanged — on `kFailure` the partially built declarations are
rolled back and the whole state (hence the declaration count and the
loaded-file registry length) equals its value from immediately before
the call; on `kMoreInputExpected` nothing is committed and the state is
likewise unchanged; only on `kSuccess` is a new Transaction appended to
the chain.  The hypothesis says no submission is already open, which
holds between any two public calls. -/
theorem submit_state_atomicity (s : Interpreter) (out : FrontendOutcome)
    (h : s.m_CurTransaction = none) :
    ((submit s out).1 = .kFailure → (submit s out).2 = s) ∧
    ((submit s out).1 = .kMoreInputExpected → (submit s out).2 = s) ∧
    ((submit s out).1 = .kFailure ∨ (submit s out).1 = .kMoreInputExpected →
        declCount (submit s out).2 = declCount s ∧
        (submit s out).2.m_LoadedFiles.length = s.m_LoadedFiles.length) ∧
    ((submit s out).1 = .kSuccess →
        ∃ t, (submit s out).2.m_Transactions = s.m_Transactions ++ [t]) := by
  cases out with
  | moreInput =>
    refine ⟨fun hc => absurd hc (by simp [submit]), fun _ => rfl,
      fun _ => ⟨rfl, rfl⟩, fun hc => absurd hc (by simp [submit])⟩
  | failure built =>
    have hs : rollbackTransaction (startTransaction s built) = s := by
      cases s
      simp_all [rollbackTransaction, startTransaction]
    refine ⟨fun _ => hs, fun hc => absurd hc (by simp [submit]),
      fun _ => ?_, fun hc => absurd hc (by simp [submit])⟩
    constructor
    · show declCount (rollbackTransaction (startTransaction s built)) = _
      rw [hs]
    · show (rollbackTransaction
          (startTransaction s built)).m_LoadedFiles.length = _
      rw [hs]
  | success ds =>
    refine ⟨fun hc => absurd hc (by simp [submit]),
      fun hc => absurd hc (by simp [submit]),
      fun hc => by simp [submit] at hc,
      fun _ => ⟨{ decls := ds, status := .Compiled, wrapperName := none },
        rfl⟩⟩

/-- C1 witness: on a fresh interpreter, a failed submission (after
partially building declarations 1 and 2) and an incomplete submission
both return the state exactly as it was, and a successful submission
appends one transaction. -/
theorem submit_state_atomicity_witness :
    (submit initInterp (FrontendOutcome.failure [1, 2])).2 = initInterp ∧
    (submit initInterp FrontendOutcome.moreInput).2 = initInterp ∧
    ∃ t, (submit initInterp
            (FrontendOutcome.success [3])).2.m_Transactions =
          initInterp.m_Transactions ++ [t] :=
  ⟨(submit_state_atomicity initInterp (FrontendOutcome.failure [1, 2])
      rfl).1 rfl,
   (submit_state_atomicity initInterp FrontendOutcome.moreInput rfl).2.1
      rfl,
   (submit_state_atomicity initInterp (FrontendOutcome.success [3])
      rfl).2.2.2 rfl⟩

lemma fireAtExit_fst (reg : List CXAAtExitElement) (ds : List Nat) :
    (fireAtExit reg ds).1 =
      (reg.filter (fun e => decide (e.m_FromTLD ∈ ds))).reverse := by
  induction reg with
  | nil => rfl
  | cons e rest ih =>
    by_cases h : e.m_FromTLD ∈ ds <;>
      simp [fireAtExit, h, ih, List.filter_cons]

lemma fireAtExit_snd (reg : List CXAAtExitElement) (ds : List Nat) :
    (fireAtExit reg ds).2 =
      reg.filter (fun e => !decide (e.m_FromTLD ∈ ds)) := by
  induction reg with
  | nil => rfl
  | cons e rest ih =>
    by_cases h : e.m_FromTLD ∈ ds <;>
      simp [fireAtExit, h, ih, List.filter_cons]

/-- C2: unloading a Transaction produces the event trace that invokes
exactly the AtExit entries registered for its declarations — all of
them, in reverse registration order, and all strictly before any of
the Transaction's declarations is removed from visible state — and
afterwards the registry holds exactly the entries of other owners (the
invoked ones are discarded). -/
theorem unload_fires_atExit_reverse_before_removal (s : Interpreter)
    (t : Transaction) :
    (unloadTransaction s t).1 =
      ((s.m_AtExitFuncs.filter
          (fun e => decide (e.m_FromTLD ∈ t.decls))).reverse.map
            UnloadEvent.atExitCall) ++
        t.decls.map UnloadEvent.removeDecl ∧
    (unloadTransaction s t).2.m_AtExitFuncs =
      s.m_AtExitFuncs.filter (fun e => !decide (e.m_FromTLD ∈ t.decls)) := by
  constructor
  · show (fireAtExit s.m_AtExitFuncs t.decls).1.map UnloadEvent.atExitCall
        ++ t.decls.map UnloadEvent.removeDecl = _
    rw [fireAtExit_fst]
  · show (fireAtExit s.m_AtExitFuncs t.decls).2 = _
    rw [fireAtExit_snd]

/-- C4: loading a loadable, not-yet-loaded library succeeds and appends
exactly one registry entry and one canonical identity to the handle
set; loading it again — through any literal path with the same
canonical identity — returns `kLoadLibExists` and changes nothing, so
`loadLibrary` is an idempotent no-op on an already-loaded library,
deduplicated by canonical identity rather than literal path. -/
theorem loadLibrary_idempotent (canon : String → String)
    (loadOk : String → Bool) (s : Interpreter) (path path2 : String)
    (p1 p2 : Bool)
    (hnew : canon path ∉ s.m_DyLibs)
    (hok : loadOk (canon path) = true)
    (hsame : canon path2 = canon path) :
    (loadLibrary canon loadOk s path p1).1 = .kLoadLibSuccess ∧
    (loadLibrary canon loadOk s path p1).2.m_LoadedFiles =
      s.m_LoadedFiles ++
        [{ m_Name := path, m_Type := .kDynamicLibrary,
           m_DynLib := some (canon path) }] ∧
    (loadLibrary canon loadOk s path p1).2.m_DyLibs =
      s.m_DyLibs ++ [canon path] ∧
    (loadLibrary canon loadOk
        (loadLibrary canon loadOk s path p1).2 path2 p2).1 =
      .kLoadLibExists ∧
    (loadLibrary canon loadOk
        (loadLibrary canon loadOk s path p1).2 path2 p2).2 =
      (loadLibrary canon loadOk s path p1).2 := by
  refine ⟨?_, ?_, ?_, ?_, ?_⟩ <;>
    simp [loadLibrary, hnew, hok, hsame]

/-- C4 witness: on a fresh interpreter with identity canonicalization
and a loadable library, the first load returns `kLoadLibSuccess` and
the second returns `kLoadLibExists` with no change. -/
theorem loadLibrary_idempotent_witness :
    (loadLibrary (fun x => x) (fun _ => true) initInterp "libA.so"
        true).1 = .kLoadLibSuccess ∧
    (loadLibrary (fun x => x) (fun _ => true)
        (loadLibrary (fun x => x) (fun _ => true) initInterp "libA.so"
          true).2 "libA.so" false).1 = .kLoadLibExists ∧
    (loadLibrary (fun x => x) (fun _ => true)
        (loadLibrary (fun x => x) (fun _ => true) initInterp "libA.so"
          true).2 "libA.so" false).2 =
      (loadLibrary (fun x => x) (fun _ => true) initInterp "libA.so"
        true).2 :=
  ⟨(loadLibrary_idempotent (fun x => x) (fun _ => true) initInterp
      "libA.so" "libA.so" true false (by decide) rfl rfl).1,
   (loadLibrary_idempotent (fun x => x) (fun _ => true) initInterp
      "libA.so" "libA.so" true false (by decide) rfl rfl).2.2.2.1,
   (loadLibrary_idempotent (fun x => x) (fun _ => true) initInterp
      "libA.so" "libA.so" true false (by decide) rfl rfl).2.2.2.2⟩

/-- C5: when the underlying load attempt fails, `loadLibrary` returns
`kLoadLibError` and mutates nothing — the whole state, in particular
the handle set and the loaded-file registry, is exactly what it was
immediately before the call. -/
theorem loadLibrary_failure_atomic (canon : String → String)
    (loadOk : String → Bool) (s : Interpreter) (filename : String)
    (permanent : Bool)
    (hnew : canon filename ∉ s.m_DyLibs)
    (hfail : loadOk (canon filename) = false) :
    (loadLibrary canon loadOk s filename permanent).1 = .kLoadLibError ∧
    (loadLibrary canon loadOk s filename permanent).2 = s ∧
    (loadLibrary canon loadOk s filename permanent).2.m_DyLibs =
      s.m_DyLibs ∧
    (loadLibrary canon loadOk s filename permanent).2.m_LoadedFiles =
      s.m_LoadedFiles := by
  refine ⟨?_, ?_, ?_, ?_⟩ <;> simp [loadLibrary, hnew, hfail]

/-- C5 witness: a failing load on a fresh interpreter returns
`kLoadLibError` and the state is untouched. -/
theorem loadLibrary_failure_atomic_witness :
    (loadLibrary (fun x => x) (fun _ => false) initInterp "libB.so"
        true).1 = .kLoadLibError ∧
    (loadLibrary (fun x => x) (fun _ => false) initInterp "libB.so"
        true).2 = initInterp :=
  ⟨(loadLibrary_failure_atomic (fun x => x) (fun _ => false) initInterp
      "libB.so" true (by decide) rfl).1,
   (loadLibrary_failure_atomic (fun x => x) (fun _ => false) initInterp
      "libB.so" true (by decide) rfl).2.1⟩

lemma foldl_addSymbol_m_Symbols (s : Interpreter) (names : List String) :
    (names.foldl addSymbol s).m_Symbols = s.m_Symbols ++ names := by
  induction names generalizing s with
  | nil => simp
  | cons n t ih => simp [List.foldl_cons, ih, addSymbol]

/-- C6: when a compiled transaction's entry point fails to link
(`kExeUnresolvedSymbols`), the transaction's declarations remain
committed in the chain — only execution failed; and after the caller
injects the missing symbols via `addSymbol`, re-running the same entry
point succeeds.  The core surfaces the unresolved-symbols result
unchanged rather than retrying on its own. -/
theorem unresolved_symbols_keeps_decls_and_retry (s : Interpreter)
    (ds : List Nat) (required : List String)
    (hmiss : ∃ n, n ∈ required ∧ n ∉ s.m_Symbols) :
    (processAndRun s (FrontendOutcome.success ds) required).1 =
      .kSuccess ∧
    (processAndRun s (FrontendOutcome.success ds) required).2.1 =
      some .kExeUnresolvedSymbols ∧
    (processAndRun s (FrontendOutcome.success ds)
        required).2.2.m_Transactions =
      s.m_Transactions ++
        [{ decls := ds, status := .Compiled, wrapperName := none }] ∧
    runFunction
      (required.foldl addSymbol
        (processAndRun s (FrontendOutcome.success ds) required).2.2)
      required = .kExeSuccess := by
  obtain ⟨n, hn, hnot⟩ := hmiss
  have hsym : (submit s (FrontendOutcome.success ds)).2.m_Symbols =
      s.m_Symbols := submit_m_Symbols s _
  have hall : required.all
      (fun m => decide
        (m ∈ (submit s (FrontendOutcome.success ds)).2.m_Symbols)) =
      false := by
    cases hc : required.all
        (fun m => decide
          (m ∈ (submit s (FrontendOutcome.success ds)).2.m_Symbols)) with
    | false => rfl
    | true =>
      exfalso
      have := List.all_eq_true.mp hc n hn
      rw [hsym] at this
      exact hnot (of_decide_eq_true this)
  refine ⟨rfl, ?_, rfl, ?_⟩
  · show some (runFunction (submit s (FrontendOutcome.success ds)).2
        required) = _
    rw [runFunction, if_neg]
    rw [hall]
    simp
  · rw [runFunction, if_pos]
    rw [List.all_eq_true]
    intro m hm
    apply decide_eq_true
    rw [foldl_addSymbol_m_Symbols]
    exact List.mem_append.mpr (Or.inr hm)

/-- C6 witness: a fresh interpreter compiles declaration 7, whose entry
point needs the external symbol `sym`; execution reports unresolved
symbols, the transaction stays committed, and after injecting `sym`
the retry succeeds. -/
theorem unresolved_symbols_keeps_decls_and_retry_witness :
    (processAndRun initInterp (FrontendOutcome.success [7])
        ["sym"]).2.1 = some .kExeUnresolvedSymbols ∧
    (processAndRun initInterp (FrontendOutcome.success [7])
        ["sym"]).2.2.m_Transactions =
      [{ decls := [7], status := .Compiled, wrapperName := none }] ∧
    runFunction
      (List.foldl addSymbol
        (processAndRun initInterp (FrontendOutcome.success [7])
          ["sym"]).2.2 ["sym"])
      ["sym"] = .kExeSuccess :=
  ⟨(unresolved_symbols_keeps_decls_and_retry initInterp [7] ["sym"]
      ⟨"sym", by decide, by decide⟩).2.1,
   (unresolved_symbols_keeps_decls_and_retry initInterp [7] ["sym"]
      ⟨"sym", by decide, by decide⟩).2.2.1,
   (unresolved_symbols_keeps_decls_and_retry initInterp [7] ["sym"]
      ⟨"sym", by decide, by decide⟩).2.2.2⟩

/-- The registry invariant of C10: a loaded-file record carries a
non-null dynamic-library handle only when its type is
`kDynamicLibrary`. -/
def dynlibInv (s : Interpreter) : Prop :=
  ∀ e ∈ s.m_LoadedFiles,
    e.m_DynLib ≠ none → e.m_Type = FileType.kDynamicLibrary

lemma processAndRun_state (s : Interpreter) (out : FrontendOutcome)
    (required : List String) :
    (processAndRun s out required).2.2 = (submit s out).2 := by
  rw [processAndRun]
  cases (submit s out).1 <;> rfl

lemma loadLibrary_loadedFiles_extension (canon : String → String)
    (loadOk : String → Bool) (s : Interpreter) (filename : String)
    (permanent : Bool) :
    ∃ tail, (loadLibrary canon loadOk s filename
        permanent).2.m_LoadedFiles = s.m_LoadedFiles ++ tail ∧
      ∀ e ∈ tail, e.m_DynLib ≠ none →
        e.m_Type = FileType.kDynamicLibrary := by
  by_cases h1 : canon filename ∈ s.m_DyLibs
  · refine ⟨[], ?_, ?_⟩
    · simp [loadLibrary, h1]
    · intro e he
      simp at he
  · by_cases h2 : loadOk (canon filename) = true
    · refine ⟨[{ m_Name := filename, m_Type := .kDynamicLibrary,
                 m_DynLib := some (canon filename) }], ?_, ?_⟩
      · simp [loadLibrary, h1, h2]
      · intro e he _
        rw [List.mem_singleton] at he
        rw [he]
    · refine ⟨[], ?_, ?_⟩
      · simp [loadLibrary, h1, h2]
      · intro e he
        simp at he

lemma routeSource_extension (s : Interpreter) (out : FrontendOutcome)
    (filename : String) :
    ∃ tail, (routeSource (submit s out) filename).2.m_LoadedFiles =
        s.m_LoadedFiles ++ tail ∧
      ∀ e ∈ tail, e.m_DynLib ≠ none →
        e.m_Type = FileType.kDynamicLibrary := by
  have hlf := submit_m_LoadedFiles s out
  rcases h : submit s out with ⟨c, st⟩
  rw [h] at hlf
  cases c with
  | kSuccess =>
    refine ⟨[{ m_Name := filename, m_Type := .kSource,
               m_DynLib := none }], ?_, ?_⟩
    · simp only [routeSource, addLoadedFile]
      rw [hlf]
    · intro e he hnn
      rw [List.mem_singleton] at he
      rw [he] at hnn
      simp at hnn
  | kFailure =>
    refine ⟨[], ?_, ?_⟩
    · simp only [routeSource]
      rw [hlf, List.append_nil]
    · intro e he
      simp at he
  | kMoreInputExpected =>
    refine ⟨[], ?_, ?_⟩
    · simp only [routeSource]
      rw [hlf, List.append_nil]
    · intro e he
      simp at he

lemma routeDynLib_state (p : LoadLibResult × Interpreter) :
    (routeDynLib p).2 = p.2 := by
  rcases p with ⟨c, st⟩
  cases c <;> rfl

/-- Every public operation only appends to the loaded-file registry,
and every appended record respects the handle/type discipline. -/
lemma applyOp_loadedFiles_extension (s : Interpreter) (op : Op) :
    ∃ tail, (applyOp s op).m_LoadedFiles = s.m_LoadedFiles ++ tail ∧
      ∀ e ∈ tail, e.m_DynLib ≠ none →
        e.m_Type = FileType.kDynamicLibrary := by
  cases op with
  | submission out =>
    exact ⟨[], by simp [applyOp, submit_m_LoadedFiles]⟩
  | run out required =>
    refine ⟨[], ?_⟩
    rw [applyOp, processAndRun_state, submit_m_LoadedFiles]
    simp
  | load classify canon loadOk srcOutcome filename allow =>
    rw [applyOp, loadFile]
    cases classify filename with
    | kDynamicLibrary =>
      cases allow with
      | true =>
        rw [if_pos rfl, routeDynLib_state]
        exact loadLibrary_loadedFiles_extension canon loadOk s filename
          false
      | false =>
        rw [if_neg (by simp)]
        exact routeSource_extension s srcOutcome filename
    | kBitcode =>
      by_cases h2 : loadOk filename = true
      · refine ⟨[{ m_Name := filename, m_Type := .kBitcode,
                   m_DynLib := none }], ?_, ?_⟩
        · rw [if_pos h2]
          rfl
        · intro e he hnn
          rw [List.mem_singleton] at he
          rw [he] at hnn
          simp at hnn
      · refine ⟨[], ?_, ?_⟩
        · rw [if_neg h2, List.append_nil]
        · intro e he
          simp at he
    | kSource => exact routeSource_extension s srcOutcome filename
    | kNumFileTypes => exact routeSource_extension s srcOutcome filename
  | loadLib canon loadOk filename permanent =>
    exact loadLibrary_loadedFiles_extension canon loadOk s filename
      permanent
  | unload t => exact ⟨[], by simp [applyOp, unloadTransaction]⟩
  | atExitReg func arg dso fromTLD =>
    exact ⟨[], by simp [applyOp, CXAAtExit]⟩
  | symbol name => exact ⟨[], by simp [applyOp, addSymbol]⟩
  | uniqueName => exact ⟨[], by simp [applyOp, createUniqueName]⟩
  | uniqueWrapper => exact ⟨[], by simp [applyOp, createUniqueWrapper]⟩
  | dynLookup value =>
    exact ⟨[], by simp [applyOp, enableDynamicLookup]⟩
  | printAST value => exact ⟨[], by simp [applyOp]⟩

/-- C8: the loaded-file registry is append-only and externally
read-only — across any sequence of public operations the registry from
before is an unchanged, in-order initial segment of the registry after
(no entry is ever removed or reordered), and `getLoadedFiles` is a pure
view of exactly that registry, so external collaborators cannot mutate
it through the accessor. -/
theorem loaded_file_registry_append_only (s : Interpreter)
    (ops : List Op) :
    s.m_LoadedFiles <+: (applyOps s ops).m_LoadedFiles ∧
    getLoadedFiles s = s.m_LoadedFiles := by
  refine ⟨?_, rfl⟩
  induction ops generalizing s with
  | nil => exact List.prefix_refl _
  | cons op rest ih =>
    have h1 : s.m_LoadedFiles <+: (applyOp s op).m_LoadedFiles := by
      obtain ⟨tail, heq, _⟩ := applyOp_loadedFiles_extension s op
      rw [heq]
      exact List.prefix_append _ _
    exact h1.trans (ih (applyOp s op))

/-- C10: in every registry state reachable from a fresh interpreter by
public operations, a `LoadedFileInfo` entry whose `getDynLib` handle is
non-null has type `kDynamicLibrary`; entries recorded for source or
bitcode artifacts always carry a null handle. -/
theorem loadedFileInfo_handle_iff_dynlib (ops : List Op)
    (e : LoadedFileInfo)
    (he : e ∈ (applyOps initInterp ops).m_LoadedFiles)
    (hnn : e.getDynLib ≠ none) :
    e.getType = FileType.kDynamicLibrary := by
  have hstep : ∀ (l : List Op) (t : Interpreter),
      dynlibInv t → dynlibInv (applyOps t l) := by
    intro l
    induction l with
    | nil => intro t ht; exact ht
    | cons op rest ih =>
      intro t ht
      refine ih (applyOp t op) ?_
      intro x hx hxn
      obtain ⟨tail, heq, htail⟩ := applyOp_loadedFiles_extension t op
      rw [heq] at hx
      rcases List.mem_append.mp hx with h1 | h2
      · exact ht x h1 hxn
      · exact htail x h2 hxn
  have hinv : dynlibInv (applyOps initInterp ops) :=
    hstep ops initInterp (by intro x hx _; simp [initInterp] at hx)
  exact hinv e he hnn

/-- C10 witness: after loading one dynamic library on a fresh
interpreter, the recorded entry's non-null handle forces its type to be
`kDynamicLibrary`. -/
theorem loadedFileInfo_handle_iff_dynlib_witness :
    LoadedFileInfo.getType
      { m_Name := "libA.so", m_Type := FileType.kDynamicLibrary,
        m_DynLib := some "libA.so" } = FileType.kDynamicLibrary :=
  loadedFileInfo_handle_iff_dynlib
    [Op.loadLib (fun x => x) (fun _ => true) "libA.so" true]
    { m_Name := "libA.so", m_Type := FileType.kDynamicLibrary,
      m_DynLib := some "libA.so" }
    (by decide) (by decide)

end Cling
